import Mathlib

/-!
Verification of the BoilR shortcut-sync program (src/src/main.rs): the merge
engine `update_platform_shortcuts`, the artwork search filter, and the batched
image-query / download loop of `main`.
-/

/-- Shallow embedding of `steam_shortcuts_util::shortcut::ShortcutOwned`,
restricted to the fields the program reads: `app_id`, `app_name`, `exe`, and
`tags`. -/
structure ShortcutOwned where
  app_id : Nat
  app_name : String
  exe : String
  tags : List String
deriving Repr, DecidableEq

/-- Shallow embedding of the `Platform<T, E>` trait (platform.rs, used by
main.rs): `enabled()`, `name()`, `get_shortcuts()`, plus the `Into<ShortcutOwned>`
conversion applied to each fetched entry. In one program run each of these is
queried once, so they are modelled as fields. -/
structure Platform (T E : Type) where
  enabled : Bool
  name : String
  get_shortcuts : Except E (List T)
  into : T → ShortcutOwned

/-- Embedding of `update_platform_shortcuts` (main.rs lines 299-321): if the
platform is enabled and fetching succeeds, retain only shortcuts whose tags do
not contain the platform name, then push one converted shortcut per fetched
entry; on fetch error only log; if disabled do nothing. -/
def update_platform_shortcuts {T E : Type} (platform : Platform T E)
    (current_shortcuts : List ShortcutOwned) : List ShortcutOwned :=
  if platform.enabled then
    match platform.get_shortcuts with
    | Except.ok shortcuts_to_add =>
        (current_shortcuts.filter (fun f => !(f.tags.contains platform.name)))
          ++ shortcuts_to_add.map platform.into
    | Except.error _ => current_shortcuts
  else
    current_shortcuts

/-- Modelled from the spec: the per-platform entry conversions
(`impl Into<ShortcutOwned>` in egs.rs and legendary.rs, files not under src/)
produce shortcuts carrying the platform's tag — "converted 1:1 into a Shortcut
carrying that platform's tag". `true` when every entry the platform would
return converts to a shortcut tagged with the platform name. -/
def tags_converted {T E : Type} (platform : Platform T E) : Bool :=
  match platform.get_shortcuts with
  | Except.ok l => l.all (fun x => (platform.into x).tags.contains platform.name)
  | Except.error _ => true

/-- Concrete platform used to instantiate the merge theorems. -/
def epicOk : Platform ShortcutOwned String :=
  { enabled := true
    name := "epic"
    get_shortcuts := Except.ok [⟨10, "Game A", "a.exe", ["epic"]⟩]
    into := fun s => s }

/-- Concrete platform whose fetch fails. -/
def epicErr : Platform ShortcutOwned String :=
  { enabled := true
    name := "epic"
    get_shortcuts := Except.error "manifest unreadable"
    into := fun s => s }

/-- Concrete platform that succeeds with an empty entry list. -/
def epicEmpty : Platform ShortcutOwned String :=
  { enabled := true
    name := "epic"
    get_shortcuts := Except.ok []
    into := fun s => s }

/-- Concrete disabled platform. -/
def epicDisabled : Platform ShortcutOwned String :=
  { enabled := false
    name := "epic"
    get_shortcuts := Except.ok [⟨10, "Game A", "a.exe", ["epic"]⟩]
    into := fun s => s }

/-- A manually-added shortcut with no platform tag. -/
def manualShortcut : ShortcutOwned := ⟨1, "Manual", "m.exe", []⟩

/-- A shortcut previously merged from the epic platform. -/
def epicShortcut : ShortcutOwned := ⟨2, "Old Epic", "e.exe", ["epic"]⟩

theorem filter_idem_shortcuts (p : ShortcutOwned → Bool) (l : List ShortcutOwned) :
    (l.filter p).filter p = l.filter p := by
  rw [List.filter_filter]
  simp

/-- Claim C1: merging is idempotent — for every collection and every platform
whose fetch succeeds (with converted entries carrying the platform tag, as the
spec states of the conversions), running `update_platform_shortcuts` twice with
identical platform output equals running it once. -/
theorem merge_idempotent {T E : Type} (platform : Platform T E)
    (c : List ShortcutOwned) (l : List T)
    (hok : platform.get_shortcuts = Except.ok l)
    (htags : tags_converted platform = true) :
    update_platform_shortcuts platform (update_platform_shortcuts platform c) =
      update_platform_shortcuts platform c := by
  unfold update_platform_shortcuts
  cases hen : platform.enabled
  · simp
  · simp only [hok, if_true]
    rw [List.filter_append, filter_idem_shortcuts]
    have hnil : (l.map platform.into).filter
        (fun f => !(f.tags.contains platform.name)) = [] := by
      rw [List.filter_eq_nil_iff]
      intro x hx
      obtain ⟨y, hy, rfl⟩ := List.mem_map.mp hx
      unfold tags_converted at htags
      rw [hok, List.all_eq_true] at htags
      simpa using htags y hy
    rw [hnil, List.append_nil]

/-- Witness for C1: running the merge of `epicOk` twice on a concrete mixed
collection equals running it once. -/
theorem merge_idempotent_witness :
    update_platform_shortcuts epicOk
        (update_platform_shortcuts epicOk [manualShortcut, epicShortcut]) =
      update_platform_shortcuts epicOk [manualShortcut, epicShortcut] :=
  merge_idempotent epicOk [manualShortcut, epicShortcut]
    [⟨10, "Game A", "a.exe", ["epic"]⟩] rfl rfl

/-- Claim C2: tag isolation — every shortcut in the collection whose tags do
not contain the platform name is still present (as the same unaltered value)
after the merge, whatever the platform fetch does. -/
theorem tag_isolation {T E : Type} (platform : Platform T E)
    (c : List ShortcutOwned) (s : ShortcutOwned)
    (hmem : s ∈ c)
    (htag : s.tags.contains platform.name = false) :
    s ∈ update_platform_shortcuts platform c := by
  unfold update_platform_shortcuts
  cases platform.enabled
  · simpa using hmem
  · cases platform.get_shortcuts with
    | ok l =>
        simp only [if_true]
        apply List.mem_append_left
        rw [List.mem_filter]
        exact ⟨hmem, by simpa using htag⟩
    | error e => simpa using hmem

/-- Witness for C2: the untagged manual shortcut survives the epic merge. -/
theorem tag_isolation_witness :
    manualShortcut ∈
      update_platform_shortcuts epicOk [manualShortcut, epicShortcut] :=
  tag_isolation epicOk [manualShortcut, epicShortcut] manualShortcut
    (by decide) (by decide)

/-- Claim C4: merge failure atomicity — if `get_shortcuts` returns an error,
the collection is completely unchanged. -/
theorem merge_error_unchanged {T E : Type} (platform : Platform T E)
    (c : List ShortcutOwned) (e : E)
    (herr : platform.get_shortcuts = Except.error e) :
    update_platform_shortcuts platform c = c := by
  unfold update_platform_shortcuts
  cases platform.enabled
  · simp
  · simp [herr]

/-- Witness for C4: the failing epic platform leaves a concrete collection,
tagged shortcut included, untouched. -/
theorem merge_error_unchanged_witness :
    update_platform_shortcuts epicErr [manualShortcut, epicShortcut] =
      [manualShortcut, epicShortcut] :=
  merge_error_unchanged epicErr [manualShortcut, epicShortcut]
    "manifest unreadable" rfl

/-- Claim C5: removal on absence — if the enabled platform succeeds with an
empty entry list, no shortcut in the result carries the platform tag. -/
theorem removal_on_absence {T E : Type} (platform : Platform T E)
    (c : List ShortcutOwned)
    (hen : platform.enabled = true)
    (hok : platform.get_shortcuts = Except.ok ([] : List T)) :
    ∀ s ∈ update_platform_shortcuts platform c,
      s.tags.contains platform.name = false := by
  intro s hs
  unfold update_platform_shortcuts at hs
  rw [hen, hok] at hs
  simp only [if_true, List.map_nil, List.append_nil] at hs
  rw [List.mem_filter] at hs
  simpa using hs.2

/-- Witness for C5: after `epicEmpty` merges into a collection holding only
the epic-tagged shortcut, that shortcut is gone — were it still a member, the
removal theorem would make its tags epic-free, contradicting its epic tag. -/
theorem removal_on_absence_witness :
    epicShortcut ∉ update_platform_shortcuts epicEmpty [epicShortcut] := by
  intro hmem
  exact absurd
    (removal_on_absence epicEmpty [epicShortcut] rfl rfl epicShortcut hmem)
    (by decide)

/-- Claim C10: a disabled platform leaves the collection exactly unchanged:
the result does not depend on `get_shortcuts` at all. -/
theorem disabled_platform_unchanged {T E : Type} (platform : Platform T E)
    (c : List ShortcutOwned)
    (hdis : platform.enabled = false) :
    update_platform_shortcuts platform c = c := by
  unfold update_platform_shortcuts
  rw [hdis]
  simp

/-- Witness for C10: the disabled epic platform leaves a concrete collection
unchanged even though its `get_shortcuts` holds a new entry. -/
theorem disabled_platform_unchanged_witness :
    update_platform_shortcuts epicDisabled [manualShortcut, epicShortcut] =
      [manualShortcut, epicShortcut] :=
  disabled_platform_unchanged epicDisabled [manualShortcut, epicShortcut] rfl

/-- Embedding of the three conventional artwork filenames built in main.rs
lines 109-113 to decide whether a shortcut needs a search. -/
def images_for (app_id : Nat) : List String :=
  [toString app_id ++ "_hero.png",
   toString app_id ++ "p.png",
   toString app_id ++ "_logo.png"]

/-- Embedding of the search filter of main.rs lines 108-116: keep a shortcut
when any of its three artwork files is missing from the known images; the
search loop (lines 118-125) then calls the cached search exactly for the
shortcuts of this list. -/
def shortcuts_to_search_for (shortcuts : List ShortcutOwned)
    (known_images : List String) : List ShortcutOwned :=
  shortcuts.filter (fun s =>
    (images_for s.app_id).any (fun image => !(known_images.contains image)))

/-- Embedding of the search loop of main.rs lines 118-125: one
`search.search(app_id, app_name)` per shortcut; a `None` result is skipped, a
`Some` result is recorded under the app id, and an error propagates out of
`main` through the `?` operator on line 121, aborting the loop. -/
def collect_search_results (searchFn : Nat → String → Except String (Option Nat)) :
    List ShortcutOwned → Except String (List (Nat × Nat))
  | [] => Except.ok []
  | s :: rest =>
    match searchFn s.app_id s.app_name with
    | Except.error e => Except.error e
    | Except.ok none => collect_search_results searchFn rest
    | Except.ok (some r) =>
        match collect_search_results searchFn rest with
        | Except.ok out => Except.ok ((s.app_id, r) :: out)
        | Except.error e => Except.error e

inductive ImageType where
  | Hero
  | Grid
  | Logo
deriving DecidableEq, Repr

/-- Embedding of `ImageType::file_name` (main.rs lines 186-193). -/
def ImageType.file_name : ImageType → Nat → String
  | ImageType.Hero, app_id => toString app_id ++ "_hero.png"
  | ImageType.Grid, app_id => toString app_id ++ "p.png"
  | ImageType.Logo, app_id => toString app_id ++ "_logo.png"

/-- A steamgriddb image descriptor returned by `get_images_for_ids`: the
service answers one requested search identifier per entry (recorded here in
`answers_id`) and carries a download `url`. main.rs reads only `url` and never
consults which identifier an entry answers. -/
structure ImageInfo where
  answers_id : Nat
  url : String
deriving DecidableEq, Repr

/-- Embedding of main.rs lines 129-132: the shortcuts that have a search
result and are still missing this image type's file, in collection order. -/
def images_needed (shortcuts : List ShortcutOwned)
    (search_results : List (Nat × Nat)) (known_images : List String)
    (image_type : ImageType) : List ShortcutOwned :=
  (shortcuts.filter (fun s => (List.lookup s.app_id search_results).isSome)).filter
    (fun s => !(known_images.contains (image_type.file_name s.app_id)))

/-- Embedding of main.rs lines 133-137: the remote identifiers extracted, in
order, from the shortcuts still needing the image type. -/
def lookup_ids (search_results : List (Nat × Nat))
    (needed : List ShortcutOwned) : List Nat :=
  needed.filterMap (fun s => List.lookup s.app_id search_results)

/-- Embedding of the download loop in the Ok branch of main.rs lines 149-167:
each response entry consumes the next shortcut of `images_needed` by position
(`images_needed.next()` on line 151); an Err entry is skipped; for an Ok entry
the image is fetched and written under the current shortcut's conventional
filename, and a fetch failure propagates out of `main` through the `?`
operators on lines 162-163. The result lists, per written file name, the image
stored there. -/
def process_images (fname : Nat → String) (fetch : String → Except String String) :
    List ShortcutOwned → List (Except String ImageInfo) →
    Except String (List (String × ImageInfo))
  | _, [] => Except.ok []
  | [], _ :: _ => Except.ok []
  | s :: rest, img :: imgs =>
    match img with
    | Except.ok i =>
        match fetch i.url with
        | Except.ok _ =>
            match process_images fname fetch rest imgs with
            | Except.ok out => Except.ok ((fname s.app_id, i) :: out)
            | Except.error e => Except.error e
        | Except.error e => Except.error e
    | Except.error _ => process_images fname fetch rest imgs

/-- Embedding of the artwork-type loop of main.rs lines 127-171: for each
image type, issue one batched query for the identifiers of the shortcuts still
needing that type; a failed query is logged and the type skipped (the Err arm
on line 169), a successful response is handed to the download loop. -/
def process_types (shortcuts : List ShortcutOwned)
    (search_results : List (Nat × Nat)) (known_images : List String)
    (query : ImageType → List Nat → Except String (List (Except String ImageInfo)))
    (fetch : String → Except String String) :
    List ImageType → Except String (List (String × ImageInfo))
  | [] => Except.ok []
  | t :: rest =>
    match query t (lookup_ids search_results
        (images_needed shortcuts search_results known_images t)) with
    | Except.error _ =>
        process_types shortcuts search_results known_images query fetch rest
    | Except.ok images =>
        match process_images (t.file_name) fetch
            (images_needed shortcuts search_results known_images t) images with
        | Except.error e => Except.error e
        | Except.ok out =>
            match process_types shortcuts search_results known_images query fetch rest with
            | Except.ok outs => Except.ok (out ++ outs)
            | Except.error e => Except.error e

/-- The artwork-type list of main.rs line 127. -/
def the_types : List ImageType := [ImageType.Logo, ImageType.Hero, ImageType.Grid]

/-- A platform-merged shortcut with app id 1 whose grid search matched id 10. -/
def gameOne : ShortcutOwned := ⟨1, "Game One", "g1.exe", ["epic"]⟩

/-- A platform-merged shortcut with app id 2 whose grid search matched id 20. -/
def gameTwo : ShortcutOwned := ⟨2, "Game Two", "g2.exe", ["epic"]⟩

/-- Search results recorded earlier in the run: app id 1 matched remote
identifier 10, app id 2 matched remote identifier 20. -/
def searchResultsTwo : List (Nat × Nat) := [(1, 10), (2, 20)]

/-- A fetch that succeeds on every url, returning its body. -/
def fetchOk : String → Except String String := fun u => Except.ok u

/-- A fetch that fails on the url of the image answering identifier 10 and
succeeds on every other url. -/
def fetchFailTen : String → Except String String :=
  fun u => if u == "url10" then Except.error "connection reset" else Except.ok u

/-- A search function that fails with a network error on app id 1 and
succeeds with a match on every other app id. -/
def searchNetFail : Nat → String → Except String (Option Nat) :=
  fun app_id _ => if app_id == 1 then Except.error "network" else Except.ok (some 20)

/-- A search function that always succeeds with no match. -/
def searchNoMatch : Nat → String → Except String (Option Nat) :=
  fun _ _ => Except.ok none

/-- A batched image query that fails for the Logo type and succeeds with one
image for the other types. -/
def queryFailsLogo :
    ImageType → List Nat → Except String (List (Except String ImageInfo)) :=
  fun t _ =>
    match t with
    | ImageType.Logo => Except.error "rate limited"
    | _ => Except.ok [Except.ok ⟨10, "url10"⟩]

/-- Claim C3 is violated by the code: for shortcuts with app ids 1 and 2 the
request identifiers are, in order, 10 and 20; when the batch response lists
the image answering identifier 20 first, the positional pairing of the
download loop writes it under app id 1's grid filename, the file of the
shortcut whose identifier 10 the other image answers. -/
theorem positional_misattribution :
    lookup_ids searchResultsTwo [gameOne, gameTwo] = [10, 20]
    ∧ process_images (ImageType.Grid.file_name) fetchOk [gameOne, gameTwo]
        [Except.ok ⟨20, "url20"⟩, Except.ok ⟨10, "url10"⟩]
      = Except.ok [("1p.png", ⟨20, "url20"⟩), ("2p.png", ⟨10, "url10"⟩)]
    ∧ (20 : Nat) ≠ 10 :=
  ⟨rfl, rfl, by decide⟩

/-- Claim C6 as stated is violated by the code: with the download of the first
image failing, the whole loop returns the error (the `?` operator on main.rs
line 162 exits `main`), so the second item, whose fetch would have succeeded,
is never downloaded. -/
theorem download_error_not_recoverable :
    process_images ImageType.Grid.file_name fetchFailTen [gameOne, gameTwo]
        [Except.ok ⟨10, "url10"⟩, Except.ok ⟨20, "url20"⟩]
      = Except.error "connection reset"
    ∧ fetchFailTen "url20" = Except.ok "url20" :=
  ⟨rfl, rfl⟩

/-- Claim C6 amended: a failure fetching one image propagates and aborts the
run rather than being logged and skipped; only an error entry inside the batch
response is skipped (consuming its positional shortcut) with later items still
processed. -/
theorem download_error_fatal :
    (∀ (fname : Nat → String) (fetch : String → Except String String)
        (s : ShortcutOwned) (rest : List ShortcutOwned) (i : ImageInfo)
        (imgs : List (Except String ImageInfo)) (e : String),
        fetch i.url = Except.error e →
        process_images fname fetch (s :: rest) (Except.ok i :: imgs) =
          Except.error e)
    ∧ (∀ (fname : Nat → String) (fetch : String → Except String String)
        (s : ShortcutOwned) (rest : List ShortcutOwned) (err : String)
        (imgs : List (Except String ImageInfo)),
        process_images fname fetch (s :: rest) (Except.error err :: imgs) =
          process_images fname fetch rest imgs) := by
  constructor
  · intro fname fetch s rest i imgs e h
    simp [process_images, h]
  · intro fname fetch s rest err imgs
    rfl

/-- Witness for the amended C6: a concrete failing fetch aborts the loop, and
a concrete per-item error entry is skipped with the rest still processed. -/
theorem download_error_fatal_witness :
    process_images ImageType.Grid.file_name fetchFailTen [gameOne, gameTwo]
        [Except.ok ⟨10, "url10"⟩, Except.ok ⟨20, "url20"⟩]
      = Except.error "connection reset"
    ∧ process_images ImageType.Grid.file_name fetchOk [gameOne, gameTwo]
        [Except.error "no grid for this id", Except.ok ⟨20, "url20"⟩]
      = process_images ImageType.Grid.file_name fetchOk [gameTwo]
          [Except.ok ⟨20, "url20"⟩] :=
  ⟨download_error_fatal.1 ImageType.Grid.file_name fetchFailTen gameOne
      [gameTwo] ⟨10, "url10"⟩ [Except.ok ⟨20, "url20"⟩] "connection reset" rfl,
   download_error_fatal.2 ImageType.Grid.file_name fetchOk gameOne [gameTwo]
      "no grid for this id" [Except.ok ⟨20, "url20"⟩]⟩

/-- Claim C7 as stated is violated by the code: a network failure of the
search lookup for the first shortcut makes the whole loop return the error
(the `?` operator on main.rs line 121 exits `main`), so the second shortcut,
whose lookup would have succeeded, is never searched. -/
theorem search_error_not_recoverable :
    collect_search_results searchNetFail [gameOne, gameTwo] =
      Except.error "network"
    ∧ searchNetFail gameTwo.app_id gameTwo.app_name = Except.ok (some 20) :=
  ⟨rfl, rfl⟩

/-- Claim C7 amended: a network failure of a single search lookup propagates
and aborts the run, so the remaining shortcuts are not searched; only a lookup
that succeeds with no match is left unresolved while the remaining shortcuts
are still processed. -/
theorem search_error_fatal :
    (∀ (f : Nat → String → Except String (Option Nat)) (s : ShortcutOwned)
        (rest : List ShortcutOwned) (e : String),
        f s.app_id s.app_name = Except.error e →
        collect_search_results f (s :: rest) = Except.error e)
    ∧ (∀ (f : Nat → String → Except String (Option Nat)) (s : ShortcutOwned)
        (rest : List ShortcutOwned),
        f s.app_id s.app_name = Except.ok none →
        collect_search_results f (s :: rest) = collect_search_results f rest) := by
  constructor
  · intro f s rest e h
    simp [collect_search_results, h]
  · intro f s rest h
    simp [collect_search_results, h]

/-- Witness for the amended C7: a concrete failing lookup aborts the loop, and
a concrete no-match lookup leaves the rest of the loop unchanged. -/
theorem search_error_fatal_witness :
    collect_search_results searchNetFail [gameOne, gameTwo] =
      Except.error "network"
    ∧ collect_search_results searchNoMatch [gameOne, gameTwo] =
        collect_search_results searchNoMatch [gameTwo] :=
  ⟨search_error_fatal.1 searchNetFail gameOne [gameTwo] "network" rfl,
   search_error_fatal.2 searchNoMatch gameOne [gameTwo] rfl⟩

/-- Claim C8: no-search-if-complete — a shortcut whose three conventional
artwork filenames are all among the known local images is never in the list of
shortcuts the search loop runs over. -/
theorem no_search_if_complete (shortcuts : List ShortcutOwned)
    (known_images : List String) (s : ShortcutOwned)
    (h : ∀ img ∈ images_for s.app_id, known_images.contains img = true) :
    s ∉ shortcuts_to_search_for shortcuts known_images := by
  intro hmem
  unfold shortcuts_to_search_for at hmem
  rw [List.mem_filter] at hmem
  have h2 := hmem.2
  rw [List.any_eq_true] at h2
  obtain ⟨img, himg, hneg⟩ := h2
  rw [h img himg] at hneg
  simp at hneg

/-- A shortcut whose three artwork files all exist locally. -/
def completeShortcut : ShortcutOwned := ⟨5, "Done", "d.exe", []⟩

/-- A local artwork directory listing holding all three files of app id 5. -/
def knownComplete : List String := ["5_hero.png", "5p.png", "5_logo.png"]

/-- Witness for C8: app id 5 with all three files present is excluded from
the search list. -/
theorem no_search_if_complete_witness :
    (∀ img ∈ images_for completeShortcut.app_id,
        knownComplete.contains img = true)
    ∧ completeShortcut ∉ shortcuts_to_search_for [completeShortcut] knownComplete :=
  ⟨by decide,
   no_search_if_complete [completeShortcut] knownComplete completeShortcut
     (by decide)⟩

/-- Claim C9: a failed batched query for one artwork type only skips that
type — the loop's result over the remaining types is exactly the result of
running it without the failing type, so the other types' queries and downloads
proceed unchanged. -/
theorem query_error_skips_type (shortcuts : List ShortcutOwned)
    (search_results : List (Nat × Nat)) (known_images : List String)
    (query : ImageType → List Nat → Except String (List (Except String ImageInfo)))
    (fetch : String → Except String String) (t : ImageType)
    (rest : List ImageType) (e : String)
    (h : query t (lookup_ids search_results
        (images_needed shortcuts search_results known_images t)) =
      Except.error e) :
    process_types shortcuts search_results known_images query fetch (t :: rest) =
      process_types shortcuts search_results known_images query fetch rest := by
  simp [process_types, h]

/-- Witness for C9: with the Logo query failing, the run over Logo then Grid
equals the run over Grid alone. -/
theorem query_error_skips_type_witness :
    process_types [gameOne] searchResultsTwo [] queryFailsLogo fetchOk
        [ImageType.Logo, ImageType.Grid] =
      process_types [gameOne] searchResultsTwo [] queryFailsLogo fetchOk
        [ImageType.Grid] :=
  query_error_skips_type [gameOne] searchResultsTwo [] queryFailsLogo fetchOk
    ImageType.Logo [ImageType.Grid] "rate limited" rfl
